import Mathlib

/-!
Shallow embedding of the preset-tour orchestration engine of the
grpc_server repository (src/services/dummy_onvif_service_v2.py,
src/services/onvif_service_v2.py, src/services/demo_onvif_service.py),
together with theorems settling the frozen claims about it.

Floats of the source are modelled as rationals; threads are modelled by
explicit state fields plus a list of thread actions (launch / join)
emitted by an operation; per-session dictionaries are modelled as lists.
-/

namespace GrpcServer

/-- One step of a preset tour: dict with keys preset_token, speed,
wait_time built in CreatePresetTour / ModifyPresetTour. -/
structure TourStep where
  preset_token : String
  speed : ℚ
  wait_time : ℕ
deriving DecidableEq, Repr

/-- A stored preset (token, name, position), as in the per-session
preset store of the dummy and demo services. -/
structure Preset where
  token : String
  name : String
  pan : ℚ
  tilt : ℚ
  zoom : ℚ
deriving DecidableEq, Repr

/-- PTZ / camera position state: pan, tilt, zoom plus the moving flag
(camera_state of demo_onvif_service.py, ptz_status of
dummy_onvif_service_v2.py). -/
structure CameraState where
  pan : ℚ
  tilt : ℚ
  zoom : ℚ
  is_moving : Bool
deriving DecidableEq, Repr

/-- The {success, message} pair every mutating operation returns. -/
structure Response where
  success : Bool
  message : String
deriving DecidableEq, Repr

/-- Thread-level side effects of an operate call: launching the
execution-loop thread, or joining it with a timeout (seconds). -/
inductive ThreadAction where
  | launch
  | join (timeout : ℕ)
deriving DecidableEq, Repr

/-- A stored tour of DummyOnvifServiceV2 (dict built in
CreatePresetTour) and, with the same fields, a manual tour of
OnvifService (dict built in _create_manual_tour; there the flag is
named stop_manual_loop and the thread field manual_loop_thread).
threadAlive models tour thread being not None and alive. -/
structure Tour where
  token : String
  name : String
  steps : List TourStep
  is_running : Bool
  auto_start : Bool
  stop_flag : Bool
  threadAlive : Bool
deriving DecidableEq, Repr

/-- Python str.lower() applied to the operation string (ASCII
lowercasing suffices for the operation verbs). -/
def lowerString (s : String) : String :=
  String.mk (s.data.map Char.toLower)

/-- Find the first tour with the given token (the linear scans
`for t in self.tours[key]` / `for tour_data in tours`). -/
def findTour (tours : List Tour) (tok : String) : Option Tour :=
  tours.find? (fun t => t.token == tok)

/-- Replace the first tour whose token matches; models in-place
mutation of the dict found by the linear scan. -/
def replaceFirst : List Tour → String → Tour → List Tour
  | [], _, _ => []
  | t :: ts, tok, t' => if t.token == tok then t' :: ts else t :: replaceFirst ts tok t'

/-- DummyOnvifServiceV2.OperatePresetTour: dispatch on the lowercased
operation; start sets is_running / clears stop_flag and launches the
execution thread, stop clears is_running / raises stop_flag and joins
the thread with timeout 2, pause/resume acknowledge without acting,
anything else is invalid. Returns the updated tour list, the response,
and the thread actions performed, in order. -/
def operatePresetTour (tours : List Tour) (tok op : String) :
    List Tour × Response × List ThreadAction :=
  match findTour tours tok with
  | none => (tours, ⟨false, "Tour token " ++ tok ++ " not found"⟩, [])
  | some tour =>
    let operation := lowerString op
    if operation = "start" then
      if tour.is_running then
        (tours, ⟨false, "Tour " ++ tour.name ++ " is already running"⟩, [])
      else
        let t' := { tour with is_running := true, stop_flag := false, threadAlive := true }
        (replaceFirst tours tok t',
         ⟨true, "Preset tour " ++ tour.name ++ " started successfully"⟩,
         [ThreadAction.launch])
    else if operation = "stop" then
      if !tour.is_running then
        (tours, ⟨false, "Tour " ++ tour.name ++ " is not running"⟩, [])
      else
        let t' := { tour with is_running := false, stop_flag := true }
        (replaceFirst tours tok t',
         ⟨true, "Preset tour " ++ tour.name ++ " stopped successfully"⟩,
         if tour.threadAlive then [ThreadAction.join 2] else [])
    else if operation = "pause" ∨ operation = "resume" then
      (tours, ⟨true, "Preset tour " ++ tour.name ++ " acknowledged"⟩, [])
    else
      (tours, ⟨false, "Invalid operation " ++ operation⟩, [])

/-- OnvifService._operate_manual_tour: same state machine as the dummy
service, with join timeout 5 and generic success messages. -/
def operateManualTour (tours : List Tour) (tok op : String) :
    List Tour × Response × List ThreadAction :=
  match findTour tours tok with
  | none => (tours, ⟨false, "Manual tour not found"⟩, [])
  | some tour =>
    if lowerString op = "start" then
      if tour.is_running then
        (tours, ⟨false, "Manual tour is already running"⟩, [])
      else
        let t' := { tour with is_running := true, stop_flag := false, threadAlive := true }
        (replaceFirst tours tok t',
         ⟨true, "Manual tour operation completed successfully"⟩,
         [ThreadAction.launch])
    else if lowerString op = "stop" then
      if !tour.is_running then
        (tours, ⟨false, "Manual tour is not running"⟩, [])
      else
        let t' := { tour with is_running := false, stop_flag := true }
        (replaceFirst tours tok t',
         ⟨true, "Manual tour operation completed successfully"⟩,
         if tour.threadAlive then [ThreadAction.join 5] else [])
    else if lowerString op = "pause" ∨ lowerString op = "resume" then
      (tours, ⟨true, "Manual tour operation completed successfully"⟩, [])
    else
      (tours, ⟨false, "Invalid operation"⟩, [])

lemma findTour_replaceFirst (tours : List Tour) (tok : String) (t t' : Tour)
    (hfind : findTour tours tok = some t) (htok : t'.token = t.token) :
    findTour (replaceFirst tours tok t') tok = some t' := by
  induction tours with
  | nil => simp [findTour] at hfind
  | cons hd tl ih =>
    by_cases h : hd.token == tok
    · simp only [findTour, List.find?] at hfind
      rw [h] at hfind
      simp at hfind
      subst hfind
      have ht' : (t'.token == tok) = true := by
        rw [htok]; exact h
      simp [replaceFirst, h, findTour, List.find?, ht']
    · simp only [findTour, List.find?] at hfind
      rw [Bool.not_eq_true] at h
      rw [h] at hfind
      have := ih hfind
      simp [replaceFirst, h, findTour, List.find?, this]
      simpa [findTour] using this

lemma lowerString_start : lowerString "start" = "start" := by decide

lemma lowerString_stop : lowerString "stop" = "stop" := by decide

/-- C1: OperatePresetTour with operation start on a tour whose
is_running flag is false sets is_running to true, clears the stop
flag, and launches exactly one execution loop; a second start while
is_running is still true returns success=false with an already-running
message, launches no loop and leaves all tour state unchanged. Both
for DummyOnvifServiceV2.OperatePresetTour and for
OnvifService._operate_manual_tour. -/
theorem operate_start_state_machine (tours : List Tour) (tok : String) (t : Tour)
    (hfind : findTour tours tok = some t) :
    (t.is_running = false →
      ∃ t', operatePresetTour tours tok "start" =
          (replaceFirst tours tok t',
           ⟨true, "Preset tour " ++ t.name ++ " started successfully"⟩,
           [ThreadAction.launch]) ∧
        operateManualTour tours tok "start" =
          (replaceFirst tours tok t',
           ⟨true, "Manual tour operation completed successfully"⟩,
           [ThreadAction.launch]) ∧
        findTour (replaceFirst tours tok t') tok = some t' ∧
        t'.is_running = true ∧ t'.stop_flag = false) ∧
    (t.is_running = true →
      operatePresetTour tours tok "start" =
        (tours, ⟨false, "Tour " ++ t.name ++ " is already running"⟩, []) ∧
      operateManualTour tours tok "start" =
        (tours, ⟨false, "Manual tour is already running"⟩, [])) := by
  constructor
  · intro hrun
    refine ⟨{ t with is_running := true, stop_flag := false, threadAlive := true }, ?_, ?_, ?_, rfl, rfl⟩
    · simp [operatePresetTour, hfind, lowerString_start, hrun]
    · simp [operateManualTour, hfind, lowerString_start, hrun]
    · exact findTour_replaceFirst tours tok t _ hfind rfl
  · intro hrun
    constructor
    · simp [operatePresetTour, hfind, lowerString_start, hrun]
    · simp [operateManualTour, hfind, lowerString_start, hrun]

/-- Witness for C1 at a concrete idle tour and a concrete running
tour. -/
theorem operate_start_state_machine_witness :
    ((⟨"tour_1", "T", [], false, false, false, false⟩ : Tour).is_running = false →
      ∃ t', operatePresetTour [⟨"tour_1", "T", [], false, false, false, false⟩] "tour_1" "start" =
          (replaceFirst [⟨"tour_1", "T", [], false, false, false, false⟩] "tour_1" t',
           ⟨true, "Preset tour " ++ "T" ++ " started successfully"⟩,
           [ThreadAction.launch]) ∧
        operateManualTour [⟨"tour_1", "T", [], false, false, false, false⟩] "tour_1" "start" =
          (replaceFirst [⟨"tour_1", "T", [], false, false, false, false⟩] "tour_1" t',
           ⟨true, "Manual tour operation completed successfully"⟩,
           [ThreadAction.launch]) ∧
        findTour (replaceFirst [⟨"tour_1", "T", [], false, false, false, false⟩] "tour_1" t') "tour_1" = some t' ∧
        t'.is_running = true ∧ t'.stop_flag = false) ∧
    ((⟨"tour_1", "T", [], false, false, false, false⟩ : Tour).is_running = true →
      operatePresetTour [⟨"tour_1", "T", [], false, false, false, false⟩] "tour_1" "start" =
        ([⟨"tour_1", "T", [], false, false, false, false⟩],
         ⟨false, "Tour " ++ "T" ++ " is already running"⟩, []) ∧
      operateManualTour [⟨"tour_1", "T", [], false, false, false, false⟩] "tour_1" "start" =
        ([⟨"tour_1", "T", [], false, false, false, false⟩],
         ⟨false, "Manual tour is already running"⟩, [])) :=
  operate_start_state_machine [⟨"tour_1", "T", [], false, false, false, false⟩]
    "tour_1" ⟨"tour_1", "T", [], false, false, false, false⟩ (by decide)

/-- C3: OperatePresetTour with operation stop on a running manual tour
clears is_running and raises the stop flag, then joins the loop thread
with a bounded timeout (2 s in the dummy service, 5 s in
OnvifService), so after the call the tour is Idle; stop on a tour that
is not running returns success=false with a not-running message and
changes nothing. -/
theorem operate_stop_state_machine (tours : List Tour) (tok : String) (t : Tour)
    (hfind : findTour tours tok = some t) :
    (t.is_running = true → t.threadAlive = true →
      ∃ t', operatePresetTour tours tok "stop" =
          (replaceFirst tours tok t',
           ⟨true, "Preset tour " ++ t.name ++ " stopped successfully"⟩,
           [ThreadAction.join 2]) ∧
        operateManualTour tours tok "stop" =
          (replaceFirst tours tok t',
           ⟨true, "Manual tour operation completed successfully"⟩,
           [ThreadAction.join 5]) ∧
        findTour (replaceFirst tours tok t') tok = some t' ∧
        t'.is_running = false ∧ t'.stop_flag = true) ∧
    (t.is_running = false →
      operatePresetTour tours tok "stop" =
        (tours, ⟨false, "Tour " ++ t.name ++ " is not running"⟩, []) ∧
      operateManualTour tours tok "stop" =
        (tours, ⟨false, "Manual tour is not running"⟩, [])) := by
  constructor
  · intro hrun halive
    refine ⟨{ t with is_running := false, stop_flag := true }, ?_, ?_, ?_, rfl, rfl⟩
    · simp [operatePresetTour, hfind, lowerString_stop, hrun, halive]
    · simp [operateManualTour, hfind, lowerString_stop, hrun, halive]
    · exact findTour_replaceFirst tours tok t _ hfind rfl
  · intro hrun
    constructor
    · simp [operatePresetTour, hfind, lowerString_stop, hrun]
    · simp [operateManualTour, hfind, lowerString_stop, hrun]

/-- Witness for C3 at a concrete running tour with a live thread. -/
theorem operate_stop_state_machine_witness :
    ((⟨"tour_1", "T", [], true, false, false, true⟩ : Tour).is_running = true →
      (⟨"tour_1", "T", [], true, false, false, true⟩ : Tour).threadAlive = true →
      ∃ t', operatePresetTour [⟨"tour_1", "T", [], true, false, false, true⟩] "tour_1" "stop" =
          (replaceFirst [⟨"tour_1", "T", [], true, false, false, true⟩] "tour_1" t',
           ⟨true, "Preset tour " ++ "T" ++ " stopped successfully"⟩,
           [ThreadAction.join 2]) ∧
        operateManualTour [⟨"tour_1", "T", [], true, false, false, true⟩] "tour_1" "stop" =
          (replaceFirst [⟨"tour_1", "T", [], true, false, false, true⟩] "tour_1" t',
           ⟨true, "Manual tour operation completed successfully"⟩,
           [ThreadAction.join 5]) ∧
        findTour (replaceFirst [⟨"tour_1", "T", [], true, false, false, true⟩] "tour_1" t') "tour_1" = some t' ∧
        t'.is_running = false ∧ t'.stop_flag = true) ∧
    ((⟨"tour_1", "T", [], true, false, false, true⟩ : Tour).is_running = false →
      operatePresetTour [⟨"tour_1", "T", [], true, false, false, true⟩] "tour_1" "stop" =
        ([⟨"tour_1", "T", [], true, false, false, true⟩],
         ⟨false, "Tour " ++ "T" ++ " is not running"⟩, []) ∧
      operateManualTour [⟨"tour_1", "T", [], true, false, false, true⟩] "tour_1" "stop" =
        ([⟨"tour_1", "T", [], true, false, false, true⟩],
         ⟨false, "Manual tour is not running"⟩, [])) :=
  operate_stop_state_machine [⟨"tour_1", "T", [], true, false, false, true⟩]
    "tour_1" ⟨"tour_1", "T", [], true, false, false, true⟩ (by decide)

/-- DemoOnvifService._simulate_movement duration computation:
duration = max_distance / (speed * 2.0). The source contains no clamp
on speed; dividing by zero (speed = 0) raises ZeroDivisionError,
modelled as none. -/
def movementDuration (maxDistance speed : ℚ) : Option ℚ :=
  if speed * 2 = 0 then none
  else some (maxDistance / (speed * 2))

/-- One iteration of the interpolation while-loop: progress =
min(elapsed / duration, 1.0), each axis recomputed from the fixed
start values. -/
def interpolatedState (st0 : CameraState) (tp tt tz duration elapsed : ℚ) :
    CameraState :=
  let progress := min (elapsed / duration) 1
  { st0 with
    pan := st0.pan + (tp - st0.pan) * progress
    tilt := st0.tilt + (tt - st0.tilt) * progress
    zoom := st0.zoom + (tz - st0.zoom) * progress }

/-- Number of 100 ms sleep ticks the while-loop executes before the
elapsed time reaches the duration. -/
def loopTickCount (duration : ℚ) : ℕ := (duration * 10).ceil.toNat

/-- The camera state after the interpolation while-loop; its position
writes are then overwritten by the exact target assignment of the
source. -/
def moveLoopFinal (st0 : CameraState) (tp tt tz duration : ℚ) : CameraState :=
  (List.range (loopTickCount duration)).foldl
    (fun s k =>
      { interpolatedState st0 tp tt tz duration ((k : ℚ) / 10) with
        is_moving := s.is_moving })
    st0

/-- The move() thread body of _simulate_movement: distances, duration,
interpolation loop, then the exact target assignment with is_moving
cleared; none models the unguarded ZeroDivisionError at speed = 0. -/
def moveBody (st0 : CameraState) (tp tt tz speed : ℚ) : Option CameraState :=
  let maxDistance := max (|tp - st0.pan|) (max (|tt - st0.tilt|) (|tz - st0.zoom|))
  match movementDuration maxDistance speed with
  | none => none
  | some duration =>
    let mid := moveLoopFinal st0 tp tt tz duration
    some { mid with pan := tp, tilt := tt, zoom := tz, is_moving := false }

/-- DemoOnvifService._simulate_movement: no-op when a movement thread
is already alive, otherwise raises is_moving and runs the move body to
completion. -/
def simulate_movement (st : CameraState) (movementThreadAlive : Bool)
    (tp tt tz speed : ℚ) : Option CameraState :=
  if movementThreadAlive then some st
  else moveBody { st with is_moving := true } tp tt tz speed

/-- C5: for every start position, target and speed > 0, with no other
move in flight, the simulated move terminates with a final state whose
pan, tilt and zoom are exactly the requested targets and whose moving
flag is false. -/
theorem simulate_movement_reaches_target (st : CameraState) (tp tt tz speed : ℚ)
    (hspeed : 0 < speed) :
    ∃ final, simulate_movement st false tp tt tz speed = some final ∧
      final.pan = tp ∧ final.tilt = tt ∧ final.zoom = tz ∧
      final.is_moving = false := by
  have h2 : speed * 2 ≠ 0 := mul_ne_zero (ne_of_gt hspeed) two_ne_zero
  refine ⟨{ moveLoopFinal { st with is_moving := true } tp tt tz
      ((max (|tp - st.pan|) (max (|tt - st.tilt|) (|tz - st.zoom|))) / (speed * 2)) with
      pan := tp, tilt := tt, zoom := tz, is_moving := false }, ?_, rfl, rfl, rfl, rfl⟩
  simp [simulate_movement, moveBody, movementDuration, h2]

/-- Witness for C5: from the origin to (1/2, -1/3, 1/4) at speed 1. -/
theorem simulate_movement_reaches_target_witness :
    ∃ final, simulate_movement ⟨0, 0, 0, false⟩ false (1/2) (-1/3) (1/4) 1 = some final ∧
      final.pan = 1/2 ∧ final.tilt = -1/3 ∧ final.zoom = 1/4 ∧
      final.is_moving = false :=
  simulate_movement_reaches_target ⟨0, 0, 0, false⟩ (1/2) (-1/3) (1/4) 1 (by norm_num)

/-- C6 is wrong about the code: the duration computation is not
guarded; at speed = 0 the division max_distance / (speed * 2.0) is a
division by zero (ZeroDivisionError in the source, none in the model),
leaving the moving flag permanently raised. Evaluated here at the
failing input speed = 0 with the camera at the origin moving to pan 1. -/
theorem simulate_movement_zero_speed_unguarded :
    movementDuration 1 0 = none ∧
    simulate_movement ⟨0, 0, 0, false⟩ false 1 0 0 0 = none := by
  constructor
  · simp [movementDuration]
  · simp [simulate_movement, moveBody, movementDuration]

/-- The dwell loop `for _ in range(wait_time): if stop_flag: exit;
time.sleep(1)` of the manual tour loops: flag i is the cancellation
flag as read at the i-th check; the result is the number of one-second
sleeps performed starting from check index i. -/
def dwellTicks (flag : ℕ → Bool) : ℕ → ℕ → ℕ
  | 0, _ => 0
  | n + 1, i => if flag i then 0 else dwellTicks flag n (i + 1) + 1

lemma dwellTicks_le (flag : ℕ → Bool) : ∀ n i, dwellTicks flag n i ≤ n
  | 0, _ => Nat.le_refl 0
  | n + 1, i => by
    by_cases h : flag i
    · simp [dwellTicks, h]
    · simp only [dwellTicks, h, if_false]
      exact Nat.succ_le_succ (dwellTicks_le flag n (i + 1))

lemma dwellTicks_le_sub (flag : ℕ → Bool) (k : ℕ)
    (hk : ∀ m, k ≤ m → flag m = true) : ∀ n i, dwellTicks flag n i ≤ k - i
  | 0, _ => Nat.zero_le _
  | n + 1, i => by
    by_cases h : flag i
    · simp [dwellTicks, h]
    · have hik : i < k := by
        by_contra hik
        exact h (hk i (Nat.le_of_not_lt hik))
      have hrec := dwellTicks_le_sub flag k hk n (i + 1)
      have hstep : dwellTicks flag (n + 1) i = dwellTicks flag n (i + 1) + 1 := by
        simp [dwellTicks, h]
      omega

/-- C8: the dwell phase is a loop of at most wait_time one-second
ticks (dwellTicks flag N 0 ≤ N) that reads the cancellation flag
before every tick; when a stop request is in force from check k on,
the loop sleeps at most k ticks — a request raised during tick j is in
force from check j+1, so it is observed within one tick — and when
k < N the loop exits without completing the remaining wait. -/
theorem dwell_cancellation_latency (flag : ℕ → Bool) (N k : ℕ)
    (hk : ∀ m, k ≤ m → flag m = true) :
    dwellTicks flag N 0 ≤ k ∧ (k < N → dwellTicks flag N 0 < N) ∧
    dwellTicks flag N 0 ≤ N := by
  have h1 : dwellTicks flag N 0 ≤ k := by
    have := dwellTicks_le_sub flag k hk N 0
    simpa using this
  exact ⟨h1, fun h => lt_of_le_of_lt h1 h, dwellTicks_le flag N 0⟩

/-- Witness for C8: a stop requested during the first tick of a
five-second dwell (flag true from check 1 on) is observed after at
most one tick. -/
theorem dwell_cancellation_latency_witness :
    dwellTicks (fun i => decide (1 ≤ i)) 5 0 ≤ 1 ∧
    (1 < 5 → dwellTicks (fun i => decide (1 ≤ i)) 5 0 < 5) ∧
    dwellTicks (fun i => decide (1 ≤ i)) 5 0 ≤ 5 :=
  dwell_cancellation_latency (fun i => decide (1 ≤ i)) 5 1
    (fun m hm => by simpa using hm)

/-- Find the first preset with the given token (the linear scans over
the preset store). -/
def findPreset (presets : List Preset) (tok : String) : Option Preset :=
  presets.find? (fun p => p.token == tok)

/-- One step of DemoOnvifService._execute_manual_loop: resolve the
preset token; when missing, log a warning and continue with the next
step (state unchanged, nothing visited); when found, run the simulated
movement to completion (the dwell that follows is time-only, modelled
by dwellTicks). none models the step never completing (the speed-0
ZeroDivisionError leaves is_moving stuck). -/
def demoRunStep (presets : List Preset) (st : CameraState) (step : TourStep) :
    Option (CameraState × Option String) :=
  match findPreset presets step.preset_token with
  | none => some (st, none)
  | some p =>
    (simulate_movement st false p.pan p.tilt p.zoom step.speed).map
      (fun st' => (st', some p.token))

/-- One full cycle of the demo manual loop over the step list with the
stop flag not raised; returns the final camera state and the tokens of
the presets actually visited, in order. -/
def demoRunCycle (presets : List Preset) (st : CameraState) :
    List TourStep → Option (CameraState × List String)
  | [] => some (st, [])
  | step :: rest =>
    match demoRunStep presets st step with
    | none => none
    | some (st', v) =>
      match demoRunCycle presets st' rest with
      | none => none
      | some (st'', vs) => some (st'', v.elim vs (fun tok => tok :: vs))

/-- One full cycle of DummyOnvifServiceV2._execute_tour over the step
list with the stop flag not raised: a found preset sets the PTZ status
to the preset position (moving cleared after the simulated 0.5 s) and
dwells; a missing preset only logs a warning and the loop proceeds to
the next step. -/
def dummyTourCycle (presets : List Preset) (st : CameraState) :
    List TourStep → CameraState × List String
  | [] => (st, [])
  | step :: rest =>
    match findPreset presets step.preset_token with
    | none => dummyTourCycle presets st rest
    | some p =>
      let r := dummyTourCycle presets ⟨p.pan, p.tilt, p.zoom, false⟩ rest
      (r.1, p.token :: r.2)

/-- C7: a step whose preset_token is absent from the preset store is
skipped — the cycle over (step :: rest) equals the cycle over rest, in
both the demo loop and the dummy loop — so a missing preset never
terminates the tour loop and never propagates an error (both cycle
functions return normally). -/
theorem missing_preset_step_skipped (presets : List Preset) (st : CameraState)
    (step : TourStep) (rest : List TourStep)
    (h : findPreset presets step.preset_token = none) :
    demoRunCycle presets st (step :: rest) = demoRunCycle presets st rest ∧
    dummyTourCycle presets st (step :: rest) = dummyTourCycle presets st rest := by
  constructor
  · cases hcr : demoRunCycle presets st rest with
    | none => simp [demoRunCycle, demoRunStep, h, hcr]
    | some r => simp [demoRunCycle, demoRunStep, h, hcr]
  · simp [dummyTourCycle, h]

/-- Witness for C7: a tour step naming an unknown preset amid the
default preset store. -/
theorem missing_preset_step_skipped_witness :
    demoRunCycle [⟨"preset_1", "Home", 0, 0, 0⟩] ⟨0, 0, 0, false⟩
        (⟨"no_such_preset", 1, 2⟩ :: [⟨"preset_1", 1, 2⟩]) =
      demoRunCycle [⟨"preset_1", "Home", 0, 0, 0⟩] ⟨0, 0, 0, false⟩ [⟨"preset_1", 1, 2⟩] ∧
    dummyTourCycle [⟨"preset_1", "Home", 0, 0, 0⟩] ⟨0, 0, 0, false⟩
        (⟨"no_such_preset", 1, 2⟩ :: [⟨"preset_1", 1, 2⟩]) =
      dummyTourCycle [⟨"preset_1", "Home", 0, 0, 0⟩] ⟨0, 0, 0, false⟩ [⟨"preset_1", 1, 2⟩] :=
  missing_preset_step_skipped [⟨"preset_1", "Home", 0, 0, 0⟩] ⟨0, 0, 0, false⟩
    ⟨"no_such_preset", 1, 2⟩ [⟨"preset_1", 1, 2⟩] (by decide)

/-- DummyOnvifServiceV2.GotoPreset on an initialized session: an
unknown token returns success=false with a not-found message before
any mutation; a found preset sets the position and raises the moving
flag (cleared 0.5 s later by the timer). -/
def gotoPreset (presets : List Preset) (st : CameraState) (tok : String) :
    CameraState × Response :=
  match findPreset presets tok with
  | none => (st, ⟨false, "Preset token " ++ tok ++ " not found"⟩)
  | some p => (⟨p.pan, p.tilt, p.zoom, true⟩, ⟨true, "Moved to preset " ++ p.name⟩)

/-- C10: GotoPreset with a token absent from the session's preset
store returns success=false and leaves the PTZ status (pan, tilt,
zoom, moving) exactly unchanged. -/
theorem gotoPreset_unknown_token (presets : List Preset) (st : CameraState)
    (tok : String) (h : findPreset presets tok = none) :
    gotoPreset presets st tok = (st, ⟨false, "Preset token " ++ tok ++ " not found"⟩) := by
  simp [gotoPreset, h]

/-- Witness for C10: unknown token against the default preset store,
camera mid-scene. -/
theorem gotoPreset_unknown_token_witness :
    gotoPreset [⟨"preset_1", "Home", 0, 0, 0⟩, ⟨"preset_2", "Entrance", 1/2, 1/5, 3/10⟩]
        ⟨1/4, -1/4, 1/10, true⟩ "preset_99" =
      (⟨1/4, -1/4, 1/10, true⟩,
       ⟨false, "Preset token " ++ "preset_99" ++ " not found"⟩) :=
  gotoPreset_unknown_token
    [⟨"preset_1", "Home", 0, 0, 0⟩, ⟨"preset_2", "Entrance", 1/2, 1/5, 3/10⟩]
    ⟨1/4, -1/4, 1/10, true⟩ "preset_99" (by decide)

/-- Token assigned by DummyOnvifServiceV2.CreatePresetTour from the
current number of stored tours. -/
def dummyTourToken (n : ℕ) : String := "tour_" ++ toString n

/-- Copy of a request step into the stored dict with keys
preset_token, speed, wait_time. -/
def copyStep (s : TourStep) : TourStep :=
  { preset_token := s.preset_token, speed := s.speed, wait_time := s.wait_time }

lemma copyStep_map_id (l : List TourStep) : l.map copyStep = l := by
  induction l with
  | nil => rfl
  | cons hd tl ih => simp [copyStep, ih]

/-- DummyOnvifServiceV2.CreatePresetTour: appends a tour whose token
is tour_{len+1} and whose steps copy preset_token, speed and wait_time
of each request step in order; returns the new store and the token. -/
def createPresetTour (tours : List Tour) (tour_name : String) (auto_start : Bool)
    (steps : List TourStep) : List Tour × String :=
  let tok := dummyTourToken (tours.length + 1)
  (tours ++ [{ token := tok, name := tour_name, steps := steps.map copyStep,
               is_running := false, auto_start := auto_start,
               stop_flag := false, threadAlive := false }], tok)

/-- The protobuf view of one stored tour as built by GetPresetTours. -/
structure PbTour where
  token : String
  name : String
  is_running : Bool
  auto_start : Bool
  steps : List TourStep
deriving DecidableEq, Repr

/-- DummyOnvifServiceV2.GetPresetTours: maps every stored tour to its
protobuf form, steps copied field-for-field in order. -/
def getPresetTours (tours : List Tour) : List PbTour :=
  tours.map (fun t =>
    { token := t.token, name := t.name, is_running := t.is_running,
      auto_start := t.auto_start, steps := t.steps.map copyStep })

/-- C9: creating a tour with step list S and then listing returns the
previous listing plus one tour whose token is the returned token and
whose steps equal S element-for-element in order (preset_token, speed
and wait_time preserved). -/
theorem create_then_list_roundtrip (tours : List Tour) (nm : String)
    (au : Bool) (steps : List TourStep) :
    getPresetTours (createPresetTour tours nm au steps).1 =
      getPresetTours tours ++
        [{ token := (createPresetTour tours nm au steps).2, name := nm,
           is_running := false, auto_start := au, steps := steps }] := by
  simp [getPresetTours, createPresetTour, copyStep_map_id]

/-- Token assigned by OnvifService._create_manual_tour from the
current number of stored manual tours. -/
def manualTourToken (n : ℕ) : String := "ManualTour_" ++ toString n

/-- OnvifService._create_manual_tour: token ManualTour_{len+1} from
the current list length, tour appended with is_running = false. -/
def createManualTour (tours : List Tour) (nm : String) (steps : List TourStep) :
    List Tour × String :=
  let tok := manualTourToken (tours.length + 1)
  (tours ++ [{ token := tok, name := nm, steps := steps.map copyStep,
               is_running := false, auto_start := false,
               stop_flag := false, threadAlive := false }], tok)

/-- OnvifService._delete_manual_tour: removes the first tour with the
given token (after stopping it when running); an unknown token leaves
the list unchanged (not-found response). -/
def deleteManualTour : List Tour → String → List Tour
  | [], _ => []
  | t :: ts, tok => if t.token == tok then ts else t :: deleteManualTour ts tok

/-- C4 is wrong about the code: the token is derived from the current
list length, so after create, create, delete ManualTour_1, the next
create assigns ManualTour_2 again — the session then stores two tours
with the same token. Evaluated on that concrete sequence. -/
theorem manual_tour_token_reuse :
    ((createManualTour
        (deleteManualTour
          (createManualTour (createManualTour [] "a" []).1 "b" []).1
          (manualTourToken 1))
        "c" []).1.map Tour.token =
      [manualTourToken 2, manualTourToken 2]) ∧
    ¬ ((createManualTour
        (deleteManualTour
          (createManualTour (createManualTour [] "a" []).1 "b" []).1
          (manualTourToken 1))
        "c" []).1.map Tour.token).Nodup := by
  constructor
  · decide
  · decide

/-- Outcome of probe method 1 (GetServiceCapabilities): the call
raises, or it returns capabilities whose PresetTour verdict
(hasattr and truthiness combined) is the Bool — both values are
definitive. -/
inductive Method1Outcome where
  | raises
  | ok (presetTour : Bool)
deriving DecidableEq, Repr

/-- Outcome of probe method 2 (GetConfigurations): the call raises, or
returns configurations; the Bool records whether some configuration
item carries a preset-tour field (only true is definitive — a scan
finding nothing falls through). -/
inductive Method2Outcome where
  | raises
  | ok (anyTourField : Bool)
deriving DecidableEq, Repr

/-- Outcome of probe method 3 (calling GetPresetTours on the first
profile): any exception is swallowed (raises), the profile list may be
empty (noProfiles — falls through), or the call succeeds. -/
inductive Method3Outcome where
  | raises
  | noProfiles
  | ok
deriving DecidableEq, Repr

/-- Outcome of probe method 4 (create_type CreatePresetTour on the
first profile): AttributeError (the operation is unknown), any other
exception, an empty profile list (falls through to the default), or
success. -/
inductive Method4Outcome where
  | raisesAttr
  | raisesOther
  | noProfiles
  | ok
deriving DecidableEq, Repr

/-- An abstract camera as observed by the four probing methods of
OnvifService._check_native_preset_tour_support. -/
structure ProbeCamera where
  m1 : Method1Outcome
  m2 : Method2Outcome
  m3 : Method3Outcome
  m4 : Method4Outcome
deriving DecidableEq, Repr

/-- OnvifService._check_native_preset_tour_support without the cache:
methods are tried in order and the first definitive answer wins;
method 1 is definitive in both directions, method 2 only positively,
method 3 only positively; method 4 concludes unsupported on
AttributeError but supported on any other exception ("likely supports
it" in the source); only the fall-through with no profiles reaches the
default-unsupported tail. -/
def checkNativeSupport (c : ProbeCamera) : Bool :=
  match c.m1 with
  | .ok b => b
  | .raises =>
    match c.m2 with
    | .ok true => true
    | _ =>
      match c.m3 with
      | .ok => true
      | _ =>
        match c.m4 with
        | .ok => true
        | .raisesAttr => false
        | .raisesOther => true
        | .noProfiles => false

/-- The probe with its per-process cache keyed by the camera key: a
cached verdict is returned as is; otherwise the probe runs and its
verdict is stored under the key. -/
def checkNativeSupportCached (cache : List (String × Bool)) (key : String)
    (c : ProbeCamera) : Bool × List (String × Bool) :=
  match cache.lookup key with
  | some b => (b, cache)
  | none =>
    let b := checkNativeSupport c
    (b, (key, b) :: cache)

/-- Execution mode of a created tour. -/
inductive ExecutionMode where
  | native
  | manual
deriving DecidableEq, Repr

/-- OnvifService.CreatePresetTour: probes native support through the
cache and dispatches to the native or the manual creation path. -/
def createPresetTourMode (cache : List (String × Bool)) (key : String)
    (c : ProbeCamera) : ExecutionMode × List (String × Bool) :=
  let r := checkNativeSupportCached cache key c
  (if r.1 then ExecutionMode.native else ExecutionMode.manual, r.2)

/-- C2 is wrong about the code: on a camera where every probing method
raises — the first three with any exception and the fourth with a
non-AttributeError exception such as a network error — the probe
concludes supported (true), not the claimed fail-safe false. -/
theorem probe_all_raise_counterexample :
    checkNativeSupport ⟨.raises, .raises, .raises, .raisesOther⟩ = true := rfl

/-- C2 amended: the probe tries its methods in order and the first
definitive answer wins so a verdict from method 1 is final; when the
first three methods raise or are inconclusive (method 2 returning
configurations without a tour field, method 3 finding no profiles)
and the final create-request probe either fails with AttributeError
(the operation is unknown to the device abstraction) or finds no
profiles, the probe returns false, the false verdict is memoized for
the session key, a later call with the same key returns the memoized
verdict without re-probing whatever the camera then reports, and
CreatePresetTour takes the manual path. A non-AttributeError failure
of the fourth method is instead concluded as supported. -/
theorem probe_fails_safe_amended (c c2 : ProbeCamera)
    (cache : List (String × Bool)) (key : String) (b : Bool)
    (h1 : c.m1 = .raises)
    (h2 : c.m2 = .raises ∨ c.m2 = .ok false)
    (h3 : c.m3 = .raises ∨ c.m3 = .noProfiles)
    (h4 : c.m4 = .raisesAttr ∨ c.m4 = .noProfiles)
    (hmiss : cache.lookup key = none) (hb : c2.m1 = .ok b) :
    checkNativeSupport c = false ∧
    checkNativeSupportCached cache key c = (false, (key, false) :: cache) ∧
    checkNativeSupportCached ((key, false) :: cache) key c2 =
      (false, (key, false) :: cache) ∧
    (createPresetTourMode cache key c).1 = ExecutionMode.manual ∧
    checkNativeSupport c2 = b := by
  have hprobe : checkNativeSupport c = false := by
    rcases h2 with h2 | h2 <;> rcases h3 with h3 | h3 <;> rcases h4 with h4 | h4 <;>
      simp [checkNativeSupport, h1, h2, h3, h4]
  have hcached : checkNativeSupportCached cache key c = (false, (key, false) :: cache) := by
    simp [checkNativeSupportCached, hmiss, hprobe]
  refine ⟨hprobe, hcached, ?_, ?_, ?_⟩
  · simp [checkNativeSupportCached, List.lookup]
  · simp [createPresetTourMode, hcached]
  · simp [checkNativeSupport, hb]

/-- Witness for C2's amended claim: an empty cache; a camera whose
method 1 raises, whose methods 2 and 3 are inconclusive without
raising (no tour field in the configurations, no profiles) and whose
fourth method raises AttributeError; and a second camera whose method
1 answers definitively true. -/
theorem probe_fails_safe_amended_witness :
    checkNativeSupport ⟨.raises, .ok false, .noProfiles, .raisesAttr⟩ = false ∧
    checkNativeSupportCached [] "cam:admin" ⟨.raises, .ok false, .noProfiles, .raisesAttr⟩ =
      (false, ("cam:admin", false) :: []) ∧
    checkNativeSupportCached (("cam:admin", false) :: []) "cam:admin"
        ⟨.ok true, .raises, .raises, .ok⟩ =
      (false, ("cam:admin", false) :: []) ∧
    (createPresetTourMode [] "cam:admin" ⟨.raises, .ok false, .noProfiles, .raisesAttr⟩).1 =
      ExecutionMode.manual ∧
    checkNativeSupport ⟨.ok true, .raises, .raises, .ok⟩ = true :=
  probe_fails_safe_amended ⟨.raises, .ok false, .noProfiles, .raisesAttr⟩
    ⟨.ok true, .raises, .raises, .ok⟩ [] "cam:admin" true
    rfl (Or.inr rfl) (Or.inr rfl) (Or.inl rfl) rfl rfl

end GrpcServer
